import Mathlib

/-!
Verification of the code-mapping and FHIR resource-synthesis engine
(`code_mapping.py`, `worker_enhanced.py`).

Modelling conventions for the shallow embedding:
* A pandas cell is either a string or NaN (`Cell`); `str()` applied to a NaN
  cell yields the string "nan", and `pd.notna` is false exactly on NaN.
* A data-frame row is a partial map from (normalized) column names to cells;
  `row.get(k)` returning Python `None` for an absent key is `none`.
* Python's `str.lower`, `str.strip`, `str.replace` and `str.split` are given
  explicit character-list implementations (`pyLower`, `pyStrip`, ...) so that
  every definition evaluates by kernel reduction.
* `Series.str.contains` is modelled as literal substring containment.  The
  source leaves the pandas default regex=True in place, so the model is
  faithful exactly for patterns free of regex metacharacters
  (`regexMetaFree`); on other patterns the source regex-matches or raises
  re.error (recorded as code bugs under C1, C2 and C5), and no statement
  here asserts anything about the program on those inputs.
* Python `str.isdigit` is modelled on ASCII digits.
* Freshly generated UUID fields and current-time stamps are nondeterministic
  and are either omitted from the resource records or taken as parameters.
-/

/-- Python `str.lower` (ASCII). -/
def pyLower (s : String) : String := String.mk (s.data.map Char.toLower)

/-- Python `str.strip` with no argument: drop leading and trailing
whitespace. -/
def pyStrip (s : String) : String :=
  String.mk (((s.data.dropWhile Char.isWhitespace).reverse.dropWhile
    Char.isWhitespace).reverse)

/-- Python `str.replace(" ", "_")`. -/
def pySpaceToUnderscore (s : String) : String :=
  String.mk (s.data.map (fun c => if c = ' ' then '_' else c))

/-- Substring containment on character lists (`pat` occurs inside `l`). -/
def listContainsSub (l pat : List Char) : Bool :=
  match l with
  | [] => pat.isEmpty
  | c :: t => pat.isPrefixOf (c :: t) || listContainsSub t pat

/-- Model of `Series.str.contains` restricted to regex-metacharacter-free
patterns, where pandas regex containment coincides with literal substring
containment; the source's regex=True behavior on other patterns (regex
matching, or re.error on invalid ones) is outside this model. -/
def strContainsSub (s pat : String) : Bool := listContainsSub s.data pat.data

/-- Freedom from the Python regex metacharacters: a pattern satisfying this
is matched by `re` exactly as a literal substring, and compiling it never
raises; the containment model is faithful precisely on such patterns. -/
def regexMetaFree (s : String) : Bool :=
  s.data.all (fun c =>
    !(['.', '^', '$', '*', '+', '?', '{', '}', '[', ']', '\\', '|',
       '(', ')'].contains c))

/-- A pandas cell: a string value or a missing (NaN) value. -/
inductive Cell where
  | str (s : String)
  | nan
deriving DecidableEq

/-- Python `str()` applied to a cell; `str(nan) = "nan"`. -/
def cellToStr : Cell → String
  | Cell.str s => s
  | Cell.nan => "nan"

/-- `pd.notna` on a cell. -/
def notna : Cell → Bool
  | Cell.str _ => true
  | Cell.nan => false

/-- Python truthiness of a cell: the empty string is falsy, NaN is truthy. -/
def truthy : Cell → Bool
  | Cell.str s => s ≠ ""
  | Cell.nan => true

/-- One data-frame row: a map from column name to cell, `none` if the key is
absent (`Series.get` returns Python `None` there). -/
def Row : Type := String → Option Cell

/-- A loaded terminology table: normalized column names plus rows in table
order. -/
structure DF where
  cols : List String
  rows : List Row

/-- `CodeMappingService._normalize_col`: strip, lower-case, and replace
spaces by underscores. -/
def normalizeCol (s : String) : String := pySpaceToUnderscore (pyLower (pyStrip s))

/-- `CodeMappingService._col`: the first alias whose normalized form is a
column of the table. -/
def colOf (df : DF) (aliases : List String) : Option String :=
  (aliases.map normalizeCol).find? (fun n => df.cols.contains n)

/-- `df[c].astype(str)` at one row: string image of the cell. -/
def colStr (r : Row) (c : String) : String := cellToStr ((r c).getD Cell.nan)

/-- The alias list for the disease column. -/
def diseaseAliases : List String := ["disease", "condition", "condition_name"]

/-- The exact-match mask of `find_by_disease` at one row:
case-insensitive, whitespace-trimmed equality. -/
def exactPred (dc q : String) (r : Row) : Bool :=
  pyLower (pyStrip (colStr r dc)) == pyLower (pyStrip q)

/-- The fallback containment mask of `find_by_disease` at one row (column is
lower-cased but not trimmed; the query is trimmed and lower-cased).  Built
on `strContainsSub`, so faithful to the source's regex containment only for
queries whose trimmed form is `regexMetaFree`. -/
def containsPred (dc q : String) (r : Row) : Bool :=
  strContainsSub (pyLower (colStr r dc)) (pyLower (pyStrip q))

/-- The record returned by a successful resolution. -/
structure MappingResult where
  disease : Option String
  icd11_code : Option String
  ayurveda_code : Option String
  siddha_code : Option String
  unani_code : Option String
  snomed_code : Option String
  loinc_code : Option String
deriving DecidableEq

/-- The `get_val` helper shared by `find_by_disease` and `find_by_any`:
resolve the column, require a non-NaN cell, trim, and turn the empty string
into `None`. -/
def getVal (df : DF) (r : Row) (aliases : List String) : Option String :=
  match colOf df aliases with
  | none => none
  | some c =>
    match r c with
    | none => none
    | some cell =>
      if notna cell then
        if pyStrip (cellToStr cell) = "" then none
        else some (pyStrip (cellToStr cell))
      else none

/-- The result dictionary built by `find_by_disease` from the matched row. -/
def extractResult (df : DF) (dc : String) (r : Row) : MappingResult :=
  { disease := some (pyStrip (cellToStr ((r dc).getD (Cell.str ""))))
  , icd11_code := getVal df r ["icd11", "icd_11", "icd11_code"]
  , ayurveda_code := getVal df r ["ayurveda", "ayurveda_code"]
  , siddha_code := getVal df r ["siddha", "siddha_code"]
  , unani_code := getVal df r ["unani", "unani_code"]
  , snomed_code := getVal df r ["snomed", "snomed_code"]
  , loinc_code := getVal df r ["loinc", "loinc_code"] }

/-- The match list of `find_by_disease`: the exact-match filter, or, when it
is empty, the containment filter. -/
def fbdMatches (df : DF) (dc q : String) : List Row :=
  if (df.rows.filter (exactPred dc q)).isEmpty then
    df.rows.filter (containsPred dc q)
  else
    df.rows.filter (exactPred dc q)

/-- `CodeMappingService.find_by_disease`.  The table argument is `none` when
no dataset loaded; the query is `none` for Python `None`.  Total, unlike the
source: for a query with regex metacharacters that reaches the contains
fallback the source regex-matches or raises re.error, so this embedding
speaks for the program only when the fallback is unreachable (empty or
`None` query, absent table or column, exact match found) or the trimmed
query is `regexMetaFree`. -/
def find_by_disease (df? : Option DF) (disease_name : Option String) :
    Option MappingResult :=
  match df?, disease_name with
  | none, _ => none
  | some _, none => none
  | some df, some q =>
    if q = "" then none
    else
      match colOf df diseaseAliases with
      | none => none
      | some dc =>
        match (fbdMatches df dc q).head? with
        | none => none
        | some r => some (extractResult df dc r)

/-- The resolution order stated by the specification: first matching row for
the exact predicate, else first matching row for the containment predicate,
else NoMatch. -/
def resolveByNameSpec (df : DF) (q : String) : Option MappingResult :=
  match colOf df diseaseAliases with
  | none => none
  | some dc =>
    match df.rows.find? (exactPred dc q) with
    | some r => some (extractResult df dc r)
    | none =>
      match df.rows.find? (containsPred dc q) with
      | some r => some (extractResult df dc r)
      | none => none

theorem head?_filter_eq_find? {α : Type} (p : α → Bool) (l : List α) :
    (l.filter p).head? = l.find? p := by
  induction l with
  | nil => rfl
  | cons a l ih =>
    cases h : p a with
    | true => simp [List.filter_cons, List.find?_cons, h]
    | false => simp [List.filter_cons, List.find?_cons, h, ih]

theorem filter_isEmpty_iff_find?_eq_none {α : Type} (p : α → Bool) (l : List α) :
    (l.filter p).isEmpty = true ↔ l.find? p = none := by
  rw [List.isEmpty_iff, ← head?_filter_eq_find?, List.head?_eq_none_iff]

theorem fbdMatches_head? (df : DF) (dc q : String) :
    (fbdMatches df dc q).head? =
      match df.rows.find? (exactPred dc q) with
      | some r => some r
      | none => df.rows.find? (containsPred dc q) := by
  unfold fbdMatches
  cases hf : df.rows.find? (exactPred dc q) with
  | none =>
    rw [if_pos ((filter_isEmpty_iff_find?_eq_none _ _).mpr hf)]
    exact head?_filter_eq_find? _ _
  | some r =>
    have hne : (df.rows.filter (exactPred dc q)).isEmpty ≠ true := by
      intro h
      rw [(filter_isEmpty_iff_find?_eq_none _ _).mp h] at hf
      exact Option.noConfusion hf
    rw [if_neg hne, head?_filter_eq_find?, hf]

/-- Model-level lemma: the embedded `find_by_disease` equals its first-match
formulation (exact predicate first, then containment, first row in table
order, else NoMatch).  As a statement about the program it is faithful only
where the containment model is, i.e. for trimmed queries that are
`regexMetaFree`; on other queries the source regex-matches or raises
(see the C1 and C5 bug records). -/
theorem find_by_disease_order (df : DF) (q : String) (hq : q ≠ "") :
    find_by_disease (some df) (some q) = resolveByNameSpec df q := by
  simp only [find_by_disease, resolveByNameSpec]
  rw [if_neg hq]
  cases colOf df diseaseAliases with
  | none => rfl
  | some dc =>
    dsimp only
    rw [fbdMatches_head?]
    cases df.rows.find? (exactPred dc q) with
    | some r => rfl
    | none => cases df.rows.find? (containsPred dc q) <;> rfl

/-- Reference row "Influenza" (first in table order). -/
def fluRow1 : Row := fun k =>
  if k = "disease" then some (Cell.str "Influenza")
  else if k = "icd11" then some (Cell.str "1E30") else none

/-- Reference row "Flu" (second in table order). -/
def fluRow2 : Row := fun k =>
  if k = "disease" then some (Cell.str "Flu")
  else if k = "icd11" then some (Cell.str "1E32") else none

/-- Two-row fixture: "Influenza" before "Flu", so a containment-first
strategy would return "Influenza" for the query "Flu". -/
def fluDF : DF := { cols := ["disease", "icd11"], rows := [fluRow1, fluRow2] }

/-- Exact-match precedence at a concrete input: querying "Flu" on the
fixture returns the "Flu" row (code "1E32"), not the earlier "Influenza"
row that a containment-first strategy would pick. -/
theorem find_by_disease_order_witness :
    find_by_disease (some fluDF) (some "Flu") = resolveByNameSpec fluDF "Flu" ∧
    resolveByNameSpec fluDF "Flu" =
      some { disease := some "Flu", icd11_code := some "1E32",
             ayurveda_code := none, siddha_code := none, unani_code := none,
             snomed_code := none, loinc_code := none } :=
  ⟨find_by_disease_order fluDF "Flu" (by decide), by decide⟩

/-- C10: an empty or `None` disease name short-circuits to NoMatch for every
service state, table rows never consulted. -/
theorem blank_query_returns_nomatch (df? : Option DF) :
    find_by_disease df? none = none ∧ find_by_disease df? (some "") = none := by
  cases df? <;> simp [find_by_disease]

/-- The claim-side description of field extraction: a present and
not-all-whitespace cell yields its trimmed string; a missing, null (NaN) or
all-whitespace cell yields absence. -/
def fieldSpec (df : DF) (r : Row) (aliases : List String) : Option String :=
  match colOf df aliases with
  | none => none
  | some c =>
    match r c with
    | some (Cell.str s) => if pyStrip s = "" then none else some (pyStrip s)
    | _ => none

/-- Helper: `get_val` agrees with the claim-side field extraction and never
produces the empty string. -/
theorem getVal_characterization (df : DF) (r : Row) (aliases : List String) :
    getVal df r aliases = fieldSpec df r aliases ∧ getVal df r aliases ≠ some "" := by
  unfold getVal fieldSpec
  cases colOf df aliases with
  | none => exact ⟨rfl, by simp⟩
  | some c =>
    dsimp only
    cases r c with
    | none => exact ⟨rfl, by simp⟩
    | some cell =>
      cases cell with
      | nan => simp [notna]
      | str s =>
        simp only [notna, cellToStr, if_true]
        by_cases h : pyStrip s = ""
        · simp [h]
        · simp [h]

/-- C4: for every table, row and code-column alias set, the extracted
`MappingResult` field is the trimmed cell exactly when the cell is present
and not all-whitespace, is absent when the cell is missing, null or
all-whitespace, and is never the empty string. -/
theorem get_val_fields (df : DF) (r : Row) (aliases : List String) :
    getVal df r aliases = fieldSpec df r aliases ∧ getVal df r aliases ≠ some "" :=
  getVal_characterization df r aliases

/-- Helper: every successful `find_by_disease` resolution carries no
empty-string code field. -/
theorem find_by_disease_result_fields (df? : Option DF) (q? : Option String)
    (m : MappingResult) (h : find_by_disease df? q? = some m) :
    m.icd11_code ≠ some "" ∧ m.ayurveda_code ≠ some "" ∧
    m.siddha_code ≠ some "" ∧ m.unani_code ≠ some "" := by
  unfold find_by_disease at h
  rcases df? with _ | df
  · exact Option.noConfusion h
  rcases q? with _ | q
  · exact Option.noConfusion h
  dsimp only at h
  by_cases hq : q = ""
  · rw [if_pos hq] at h; exact Option.noConfusion h
  rw [if_neg hq] at h
  rcases hdc : colOf df diseaseAliases with _ | dc <;> rw [hdc] at h <;>
    dsimp only at h
  · exact Option.noConfusion h
  rcases hh : (fbdMatches df dc q).head? with _ | r <;> rw [hh] at h <;>
    dsimp only at h
  · exact Option.noConfusion h
  have hm : m = extractResult df dc r := (Option.some.inj h).symm
  subst hm
  exact ⟨(getVal_characterization df r _).2, (getVal_characterization df r _).2,
         (getVal_characterization df r _).2, (getVal_characterization df r _).2⟩

/-- SNOMED system URI used for the primary coding entry. -/
def snomedURI : String := "http://snomed.info/sct"

/-- ICD-11 system URI from `CodeMappingService.DEFAULT_SYSTEMS`. -/
def icd11URI : String := "http://id.who.int/icd/release/11/mms"

/-- Ayurveda system URI from `CodeMappingService.DEFAULT_SYSTEMS`. -/
def ayurvedaURI : String := "https://nrces.in/terminology/CodeSystem/ayush-ayurveda"

/-- Siddha system URI from `CodeMappingService.DEFAULT_SYSTEMS`. -/
def siddhaURI : String := "https://nrces.in/terminology/CodeSystem/ayush-siddha"

/-- Unani system URI from `CodeMappingService.DEFAULT_SYSTEMS`. -/
def unaniURI : String := "https://nrces.in/terminology/CodeSystem/ayush-unani"

/-- One entry of a `code.coding` list. -/
structure Coding where
  system : String
  code : String
  display : String
deriving DecidableEq

/-- Python `str(row.get(k, '') or '').strip()` as used for `snomed_code` and
`condition_name` in `generate_condition_resource` (a NaN cell is truthy, so
it stringifies to "nan"). -/
def rowStrOrEmpty (r : Row) (k : String) : String :=
  pyStrip (cellToStr (if truthy ((r k).getD (Cell.str "")) then
    (r k).getD (Cell.str "") else Cell.str ""))

/-- One secondary coding entry of `generate_condition_resource`: emitted only
when resolution succeeded and the resolved code is truthy; the display is
`condition_name or mapped.get('disease', '')`. -/
def secondaryCoding (name : String) (m : MappingResult)
    (get : MappingResult → Option String) (uri : String) : List Coding :=
  match get m with
  | none => []
  | some c =>
    if c = "" then []
    else [{ system := uri, code := c,
            display := if name = "" then m.disease.getD "" else name }]

/-- The coding list assembled by `FHIRModule.generate_condition_resource`:
an SNOMED entry when a primary code or a condition name is present, then the
resolver-supplied ICD-11, Ayurveda, Siddha and Unani entries.  Total, unlike
the source, which can raise out of the resolver's regex fallback for
condition names with regex metacharacters and then produces no coding list
for the row (see the C2 bug record). -/
def conditionCodings (df? : Option DF) (r : Row) : List Coding :=
  (if rowStrOrEmpty r "snomed_code" ≠ "" ∨ rowStrOrEmpty r "condition_name" ≠ "" then
    [{ system := snomedURI, code := rowStrOrEmpty r "snomed_code",
       display := rowStrOrEmpty r "condition_name" }]
  else []) ++
  (match (if rowStrOrEmpty r "condition_name" ≠ "" then
      find_by_disease df? (some (rowStrOrEmpty r "condition_name")) else none) with
   | none => []
   | some m =>
     secondaryCoding (rowStrOrEmpty r "condition_name") m
       MappingResult.icd11_code icd11URI ++
     secondaryCoding (rowStrOrEmpty r "condition_name") m
       MappingResult.ayurveda_code ayurvedaURI ++
     secondaryCoding (rowStrOrEmpty r "condition_name") m
       MappingResult.siddha_code siddhaURI ++
     secondaryCoding (rowStrOrEmpty r "condition_name") m
       MappingResult.unani_code unaniURI)

/-- The condition resource (UUID identifier, subject reference and the two
timestamps are nondeterministic and omitted; the remaining emitted fields are
constants plus the coding assembly). -/
structure ConditionResource where
  clinicalStatusCode : String
  verificationStatusCode : String
  categoryCode : String
  codings : List Coding
  text : String
deriving DecidableEq

/-- `FHIRModule.generate_condition_resource`. -/
def generate_condition_resource (df? : Option DF) (r : Row) : ConditionResource :=
  { clinicalStatusCode := "active"
  , verificationStatusCode := "confirmed"
  , categoryCode := "encounter-diagnosis"
  , codings := conditionCodings df? r
  , text := rowStrOrEmpty r "condition_name" }

/-- The claim-side coding assembly for a row with a non-blank condition name:
the primary entry first, then one entry per secondary system holding a
resolved code, in the fixed order ICD-11, Ayurveda, Siddha, Unani, each
carrying the primary display text. -/
def claimedCodings (df? : Option DF) (r : Row) : List Coding :=
  { system := snomedURI, code := rowStrOrEmpty r "snomed_code",
    display := rowStrOrEmpty r "condition_name" } ::
  (match find_by_disease df? (some (rowStrOrEmpty r "condition_name")) with
   | none => []
   | some m =>
     [ (icd11URI, m.icd11_code), (ayurvedaURI, m.ayurveda_code),
       (siddhaURI, m.siddha_code), (unaniURI, m.unani_code) ].filterMap
       (fun p => p.2.map (fun c =>
         { system := p.1, code := c, display := rowStrOrEmpty r "condition_name" })))

/-- Helper: shape of one secondary coding entry when the resolved field is
known not to be the empty string and the display text is non-blank. -/
theorem secondaryCoding_eq (name : String) (hn : name ≠ "") (m : MappingResult)
    (get : MappingResult → Option String) (uri : String) (hne : get m ≠ some "") :
    secondaryCoding name m get uri =
      match get m with
      | none => []
      | some c => [{ system := uri, code := c, display := name }] := by
  unfold secondaryCoding
  rcases hg : get m with _ | c
  · rfl
  · have hc : c ≠ "" := fun hc => hne (hc ▸ hg)
    simp [hc, hn]

/-- Helper: membership in a secondary coding block forces the resolved code. -/
theorem mem_secondaryCoding (name : String) (m : MappingResult)
    (get : MappingResult → Option String) (uri : String) (e : Coding)
    (he : e ∈ secondaryCoding name m get uri) : get m = some e.code := by
  unfold secondaryCoding at he
  rcases hg : get m with _ | c <;> rw [hg] at he <;> dsimp only at he
  · simp at he
  · by_cases hc : c = ""
    · simp [hc] at he
    · rw [if_neg hc] at he
      simp at he
      rw [he]

/-- Model-level lemma: for a row with a non-blank condition name the
embedded coding assembly is the primary SNOMED entry followed by exactly one
entry per secondary system with a resolved code, in the order ICD-11,
Ayurveda, Siddha, Unani, each carrying the primary display text, and no tail
entry has an empty code.  Faithful to the program only where the embedded
resolver is (condition names whose resolution avoids the regex fallback or
is `regexMetaFree`); for metacharacter names the source can raise through
the resolver and emit no coding list at all (see the C2 bug record). -/
theorem condition_codings_assembly (df? : Option DF) (r : Row)
    (h : rowStrOrEmpty r "condition_name" ≠ "") :
    conditionCodings df? r = claimedCodings df? r ∧
    ∀ e ∈ (conditionCodings df? r).tail, e.code ≠ "" := by
  constructor
  · unfold conditionCodings claimedCodings
    rw [if_pos h, if_pos (Or.inr h)]
    rcases hm : find_by_disease df? (some (rowStrOrEmpty r "condition_name"))
      with _ | m
    · simp
    · obtain ⟨ne1, ne2, ne3, ne4⟩ := find_by_disease_result_fields _ _ _ hm
      dsimp only
      rw [secondaryCoding_eq _ h _ _ _ ne1, secondaryCoding_eq _ h _ _ _ ne2,
          secondaryCoding_eq _ h _ _ _ ne3, secondaryCoding_eq _ h _ _ _ ne4]
      rcases m.icd11_code with _ | c1 <;> rcases m.ayurveda_code with _ | c2 <;>
        rcases m.siddha_code with _ | c3 <;> rcases m.unani_code with _ | c4 <;>
        simp [List.filterMap_cons]
  · intro e he
    unfold conditionCodings at he
    rw [if_pos h, if_pos (Or.inr h)] at he
    rcases hm : find_by_disease df? (some (rowStrOrEmpty r "condition_name"))
      with _ | m <;> rw [hm] at he <;> dsimp only at he
    · simp at he
    · obtain ⟨ne1, ne2, ne3, ne4⟩ := find_by_disease_result_fields _ _ _ hm
      rw [List.singleton_append, List.tail_cons] at he
      rcases List.mem_append.mp he with he1 | he4
      rcases List.mem_append.mp he1 with he2 | he3
      rcases List.mem_append.mp he2 with ha | hb
      · intro hcode
        exact ne1 (hcode ▸ mem_secondaryCoding _ _ _ _ _ ha)
      · intro hcode
        exact ne2 (hcode ▸ mem_secondaryCoding _ _ _ _ _ hb)
      · intro hcode
        exact ne3 (hcode ▸ mem_secondaryCoding _ _ _ _ _ he3)
      · intro hcode
        exact ne4 (hcode ▸ mem_secondaryCoding _ _ _ _ _ he4)

/-- Reference row mapping "Diabetes" to the Ayurveda code "AY01" only. -/
def diaRow : Row := fun k =>
  if k = "disease" then some (Cell.str "Diabetes")
  else if k = "ayurveda" then some (Cell.str "AY01") else none

/-- One-row reference table for the Diabetes scenario. -/
def diaDF : DF := { cols := ["disease", "ayurveda"], rows := [diaRow] }

/-- Input row carrying only a condition name (no primary code). -/
def diaInput : Row := fun k =>
  if k = "condition_name" then some (Cell.str "Diabetes") else none

/-- The coding assembly at a concrete input: on the Diabetes fixture the
coding list is exactly the display-only primary entry (empty code) followed
by the Ayurveda entry. -/
theorem condition_codings_assembly_witness :
    conditionCodings (some diaDF) diaInput = claimedCodings (some diaDF) diaInput ∧
    claimedCodings (some diaDF) diaInput =
      [ { system := snomedURI, code := "", display := "Diabetes" },
        { system := ayurvedaURI, code := "AY01", display := "Diabetes" } ] :=
  ⟨(condition_codings_assembly (some diaDF) diaInput (by decide)).1, by decide⟩

/-- Python `str(row.get(k, dflt))` with a string default. -/
def rowGetStr (r : Row) (k dflt : String) : String :=
  cellToStr ((r k).getD (Cell.str dflt))

/-- The demographic (Patient) resource: the deterministic fields emitted by
`generate_patient_resource` (the generated UUID id, the identifier value
falling back to that UUID, and the subject-free boilerplate are omitted). -/
structure PatientResource where
  family : String
  given : String
  gender : String
  birthDate : String
  addressLine : String
  city : String
  state : String
  postalCode : String
  country : String
  phone : String
  email : String
deriving DecidableEq

/-- `FHIRModule.generate_patient_resource`: note the gender default
`'unknown'` applies only when the key is absent from the row. -/
def generate_patient_resource (r : Row) : PatientResource :=
  { family := rowGetStr r "last_name" ""
  , given := rowGetStr r "first_name" ""
  , gender := pyLower (cellToStr ((r "gender").getD (Cell.str "unknown")))
  , birthDate := rowGetStr r "birth_date" ""
  , addressLine := rowGetStr r "address" ""
  , city := rowGetStr r "city" ""
  , state := rowGetStr r "state" ""
  , postalCode := rowGetStr r "postal_code" ""
  , country := rowGetStr r "country" "US"
  , phone := rowGetStr r "phone" ""
  , email := rowGetStr r "email" "" }

/-- The amended description of the gender mapping: lower-cased stringified
cell when the gender key is present (a blank cell stays blank and a NaN cell
becomes "nan"), and the "unknown" marker only when the key is absent. -/
def genderSpec (r : Row) : String :=
  match r "gender" with
  | none => "unknown"
  | some (Cell.str s) => pyLower s
  | some Cell.nan => "nan"

/-- Input row whose gender attribute is present but blank. -/
def rowBlankGender : Row := fun k =>
  if k = "first_name" then some (Cell.str "Ana")
  else if k = "gender" then some (Cell.str "") else none

/-- C8 counterexample: a present-but-blank gender yields the empty string,
not the "unknown" marker. -/
theorem gender_blank_not_unknown :
    (generate_patient_resource rowBlankGender).gender = "" ∧
    (generate_patient_resource rowBlankGender).gender ≠ "unknown" := by decide

/-- C8 amended: the emitted gender is the lower-cased stringified gender
cell, equal to "unknown" exactly in the absent-key case. -/
theorem gender_mapping (r : Row) :
    (generate_patient_resource r).gender = genderSpec r := by
  unfold generate_patient_resource genderSpec
  rcases r "gender" with _ | cell
  · rfl
  · cases cell
    · rfl
    · rfl

/-- Python `str.isdigit` (ASCII model): non-empty and all digits. -/
def pyIsDigit (s : String) : Bool := !s.data.isEmpty && s.data.all Char.isDigit

/-- Python `str.replace('.', '')`. -/
def pyDropDots (s : String) : String :=
  String.mk (s.data.filter (fun c => c ≠ '.'))

/-- The natural number denoted by a digit string (empty means 0, as in the
integer or fractional part of a Python float literal). -/
def natOfDigits (s : String) : ℕ :=
  s.data.foldl (fun n c => n * 10 + (c.toNat - 48)) 0

/-- Python `float(s)` for a string whose dot-stripped form is all digits:
succeeds with at most one dot, raises ValueError (modelled as `Except.error`)
with two or more dots. -/
def pyFloatOfGuarded (s : String) : Except Unit ℚ :=
  match (s.data.filter (fun c => c = '.')).length with
  | 0 => Except.ok (natOfDigits s)
  | 1 =>
    Except.ok ((natOfDigits (String.mk (s.data.takeWhile (fun c => c ≠ '.'))) : ℚ) +
      (natOfDigits (String.mk ((s.data.dropWhile (fun c => c ≠ '.')).drop 1)) : ℚ) /
        (10 : ℚ) ^ ((s.data.dropWhile (fun c => c ≠ '.')).drop 1).length)
  | _ => Except.error ()

/-- The `valueQuantity.value` computation of
`generate_observation_resource`: `float(...) if pd.notna(v) and
str(v).replace('.', '').isdigit() else 0`.  The guard admits digit strings
with any number of dots, so `float` itself can still raise. -/
def observationValue (r : Row) : Except Unit ℚ :=
  match r "value" with
  | none => Except.ok 0
  | some Cell.nan => Except.ok 0
  | some (Cell.str s) =>
    if pyIsDigit (pyDropDots s) then pyFloatOfGuarded s else Except.ok 0

/-- The measurement (Observation) resource: deterministic fields emitted by
`generate_observation_resource` (UUID id, subject reference and the
current-time default for the effective date are omitted). -/
structure ObservationResource where
  status : String
  categoryCode : String
  loincCode : String
  name : String
  value : ℚ
  unit : String
  unitCode : String
deriving DecidableEq

/-- `FHIRModule.generate_observation_resource`; an `Except.error` models the
ValueError escaping the resource builder. -/
def generate_observation_resource (r : Row) : Except Unit ObservationResource :=
  match observationValue r with
  | Except.error e => Except.error e
  | Except.ok v =>
    Except.ok
      { status := "final"
      , categoryCode := "vital-signs"
      , loincCode := rowGetStr r "loinc_code" ""
      , name := rowGetStr r "observation_name" ""
      , value := v
      , unit := rowGetStr r "unit" ""
      , unitCode := rowGetStr r "unit_code" "" }

/-- Decidable equality for the exception-carrying builder results. -/
instance {e a : Type} [DecidableEq e] [DecidableEq a] : DecidableEq (Except e a) :=
  fun x y =>
    match x, y with
    | Except.ok u, Except.ok v =>
      if h : u = v then isTrue (by rw [h]) else isFalse (fun hc => h (Except.ok.inj hc))
    | Except.error u, Except.error v =>
      if h : u = v then isTrue (by rw [h]) else isFalse (fun hc => h (Except.error.inj hc))
    | Except.ok _, Except.error _ => isFalse (fun hc => Except.noConfusion hc)
    | Except.error _, Except.ok _ => isFalse (fun hc => Except.noConfusion hc)

/-- One synthesized resource. -/
inductive Resource where
  | patient (p : PatientResource)
  | observation (o : ObservationResource)
  | condition (c : ConditionResource)
deriving DecidableEq

/-- The observation gate of `process_data_to_fhir`: some measurement-related
column exists in the table. -/
def obsColumnsExist (cols : List String) : Bool :=
  ["observation_name", "value", "unit"].any (fun c => cols.contains c)

/-- The condition gate of `process_data_to_fhir`: some condition-related
column exists in the table. -/
def condColumnsExist (cols : List String) : Bool :=
  ["condition_name", "snomed_code"].any (fun c => cols.contains c)

/-- `pd.notna(row.get(k)) and str(row.get(k)).strip()`: the row holds a
non-NaN, non-blank cell under `k`. -/
def nonBlankCell (r : Row) (k : String) : Bool :=
  match r k with
  | some (Cell.str s) => pyStrip s ≠ ""
  | _ => false

/-- The per-row body of `FHIRModule.process_data_to_fhir`: the patient
resource always, then the gated observation and condition resources; the
row-level `except` keeps what was already appended and skips the rest of the
row when the observation builder raises. -/
def processRowToFhir (mapping : Option DF) (cols : List String) (r : Row) :
    List Resource :=
  if obsColumnsExist cols && nonBlankCell r "observation_name" then
    match generate_observation_resource r with
    | Except.error _ => [Resource.patient (generate_patient_resource r)]
    | Except.ok o =>
      if condColumnsExist cols && nonBlankCell r "condition_name" then
        [Resource.patient (generate_patient_resource r),
         Resource.observation o,
         Resource.condition (generate_condition_resource mapping r)]
      else
        [Resource.patient (generate_patient_resource r), Resource.observation o]
  else
    if condColumnsExist cols && nonBlankCell r "condition_name" then
      [Resource.patient (generate_patient_resource r),
       Resource.condition (generate_condition_resource mapping r)]
    else
      [Resource.patient (generate_patient_resource r)]

/-- `FHIRModule.process_data_to_fhir` over a whole input table. -/
def process_data_to_fhir (mapping : Option DF) (data : DF) : List Resource :=
  data.rows.flatMap (fun r => processRowToFhir mapping data.cols r)

/-- C7: an observation resource appears in a row's output only when a
measurement-related column exists in the table and the row's measurement
name is non-blank; in particular a blank, missing or all-whitespace name
yields no observation even when value or unit data is present. -/
theorem observation_gating (mapping : Option DF) (cols : List String) (r : Row)
    (o : ObservationResource)
    (h : Resource.observation o ∈ processRowToFhir mapping cols r) :
    obsColumnsExist cols = true ∧ nonBlankCell r "observation_name" = true := by
  unfold processRowToFhir at h
  by_cases hg : (obsColumnsExist cols && nonBlankCell r "observation_name") = true
  · simp only [Bool.and_eq_true] at hg
    exact hg
  · exfalso
    rw [if_neg hg] at h
    by_cases hc : (condColumnsExist cols && nonBlankCell r "condition_name") = true
    · rw [if_pos hc] at h; simp at h
    · rw [if_neg hc] at h; simp at h

/-- Input row holding only a measurement name. -/
def rBP : Row := fun k =>
  if k = "observation_name" then some (Cell.str "BP") else none

/-- C7 witness: on a table with an observation-name column and a row naming
a measurement, an observation is produced and the gates are indeed open. -/
theorem observation_gating_witness :
    obsColumnsExist ["observation_name"] = true ∧
    nonBlankCell rBP "observation_name" = true :=
  observation_gating none ["observation_name"] rBP
    { status := "final", categoryCode := "vital-signs", loincCode := "",
      name := "BP", value := 0, unit := "", unitCode := "" } (by decide)

/-- Input row whose value cell is the non-numeric text "1.2.3": its
dot-stripped form "123" passes the digit guard, so Python calls
`float("1.2.3")`, which raises. -/
def rowVal123 : Row := fun k =>
  if k = "observation_name" then some (Cell.str "BP")
  else if k = "value" then some (Cell.str "1.2.3") else none

/-- Input row whose value cell is the non-numeric text "abc". -/
def rowValAbc : Row := fun k =>
  if k = "observation_name" then some (Cell.str "BP")
  else if k = "value" then some (Cell.str "abc") else none

/-- C6 (code-bug evidence): for value "1.2.3" the digit guard passes and the
float conversion raises, so the row keeps only its patient resource and no
observation with value zero is emitted; for a guard-rejected text such as
"abc" the value does default to zero as the claim states. -/
theorem observation_value_parse_bug :
    observationValue rowVal123 = Except.error () ∧
    processRowToFhir none ["observation_name", "value"] rowVal123 =
      [Resource.patient (generate_patient_resource rowVal123)] ∧
    observationValue rowValAbc = Except.ok 0 ∧
    generate_observation_resource rowValAbc =
      Except.ok { status := "final", categoryCode := "vital-signs",
                  loincCode := "", name := "BP", value := 0, unit := "",
                  unitCode := "" } := by decide

/-- One bundle entry wrapping a resource. -/
structure BundleEntry where
  resource : Resource
deriving DecidableEq

/-- A persisted FHIR bundle document. -/
structure Bundle where
  id : String
  bundleType : String
  timestamp : String
  entry : List BundleEntry
deriving DecidableEq

/-- The bundle assembly of `FHIRModule.save_fhir_bundle`: fixed collection
type, supplied identifier and timestamp (the source draws them from
`uuid.uuid4()` and `datetime.now()`), one entry per resource in synthesis
order. -/
def assembleBundle (bid ts : String) (resources : List Resource) : Bundle :=
  { id := bid, bundleType := "collection", timestamp := ts
  , entry := resources.map (fun rsc => { resource := rsc }) }

/-- File persistence modelled as a name-indexed store; `json.dump` followed
by `json.load` is assumed faithful on the bundle document. -/
def FileStore : Type := String → Option Bundle

/-- `FHIRModule.save_fhir_bundle`: refuses an empty resource list, otherwise
writes the assembled bundle under the output path. -/
def save_fhir_bundle (resources : List Resource) (bid ts path : String)
    (store : FileStore) : FileStore × Bool :=
  if resources.isEmpty then (store, false)
  else
    (fun f => if f = path then some (assembleBundle bid ts resources) else store f,
     true)

/-- Reading a persisted bundle back (`json.load`). -/
def loadBundle (store : FileStore) (path : String) : Option Bundle := store path

/-- C9: persisting a bundle assembled from a non-empty resource sequence and
reloading it yields a bundle with the same identifier, the same timestamp
and exactly one entry per resource, wrapping the resources in synthesis
order. -/
theorem bundle_save_load_roundtrip (resources : List Resource)
    (bid ts path : String) (store : FileStore) (h : resources ≠ []) :
    (save_fhir_bundle resources bid ts path store).2 = true ∧
    loadBundle (save_fhir_bundle resources bid ts path store).1 path =
      some (assembleBundle bid ts resources) ∧
    (assembleBundle bid ts resources).id = bid ∧
    (assembleBundle bid ts resources).timestamp = ts ∧
    (assembleBundle bid ts resources).entry.length = resources.length ∧
    ∀ i : ℕ, ((assembleBundle bid ts resources).entry.get? i).map
      BundleEntry.resource = resources.get? i := by
  have hne : resources.isEmpty ≠ true := by simpa [List.isEmpty_iff] using h
  unfold save_fhir_bundle loadBundle
  rw [if_neg hne]
  refine ⟨rfl, ?_, rfl, rfl, by simp [assembleBundle], ?_⟩
  · dsimp only
    rw [if_pos rfl]
  · intro i
    simp only [assembleBundle, List.get?_eq_getElem?, List.getElem?_map,
      Option.map_map]
    cases hri : resources[i]?
    · rfl
    · rfl

/-- The empty file store. -/
def emptyStore : FileStore := fun _ => none

/-- A two-resource synthesis run for the round-trip witness. -/
def witnessResources : List Resource :=
  [ Resource.patient (generate_patient_resource rBP)
  , Resource.observation
      { status := "final", categoryCode := "vital-signs", loincCode := "",
        name := "BP", value := 0, unit := "", unitCode := "" } ]

/-- C9 witness: saving and reloading the two-resource bundle reproduces the
assembled document. -/
theorem bundle_save_load_roundtrip_witness :
    (save_fhir_bundle witnessResources "b1" "t1" "out.json" emptyStore).2 = true ∧
    loadBundle (save_fhir_bundle witnessResources "b1" "t1" "out.json"
      emptyStore).1 "out.json" = some (assembleBundle "b1" "t1" witnessResources) :=
  ⟨(bundle_save_load_roundtrip witnessResources "b1" "t1" "out.json" emptyStore
      (by decide)).1,
   (bundle_save_load_roundtrip witnessResources "b1" "t1" "out.json" emptyStore
      (by decide)).2.1⟩

/-- The alias-value pairs for the five exact code masks of `find_by_any`, in
source order: SNOMED, ICD-11, Ayurveda, Siddha, Unani. -/
def codeAliasVals (snomed icd11 ayurveda siddha unani : Option String) :
    List (List String × Option String) :=
  [ (["snomed", "snomed_code"], snomed)
  , (["icd11", "icd_11", "icd11_code"], icd11)
  , (["ayurveda", "ayurveda_code"], ayurveda)
  , (["siddha", "siddha_code"], siddha)
  , (["unani", "unani_code"], unani) ]

/-- `eq_mask` inside `find_by_any`: an exact case-insensitive trimmed
equality mask, skipped when the column is missing or the supplied value is
`None` or blank. -/
def eqMask (df : DF) (aliases : List String) (value : Option String) :
    Option (Row → Bool) :=
  match colOf df aliases with
  | none => none
  | some c =>
    match value with
    | none => none
    | some v => if pyStrip v = "" then none else some (exactPred c v)

/-- Python truthiness of the optional disease argument (`if disease:`):
false only for `None` and the empty string — a whitespace-only string is
truthy. -/
def diseaseTruthy : Option String → Bool
  | none => false
  | some d => d != ""

/-- The mask list of `find_by_any`: the code masks, then an exact disease
mask whenever the disease string is truthy (so also when it is
whitespace-only) and the disease column exists. -/
def anyMasks (df : DF)
    (disease snomed icd11 ayurveda siddha unani : Option String) :
    List (Row → Bool) :=
  (codeAliasVals snomed icd11 ayurveda siddha unani).filterMap
    (fun p => eqMask df p.1 p.2) ++
  (match disease with
   | none => []
   | some d =>
     if d = "" then []
     else
       match colOf df diseaseAliases with
       | none => []
       | some dc => [exactPred dc d])

/-- The match list of `find_by_any`: rows satisfying the OR-combined mask,
or, when that is empty and the disease argument is truthy and its column
exists, the containment-on-disease fallback.  The fallback uses
`containsPred`, so it is faithful to the source's regex containment only for
trimmed disease strings that are `regexMetaFree`. -/
def fbaMatches (df : DF) (masks : List (Row → Bool)) (disease : Option String) :
    List Row :=
  if (df.rows.filter (fun r => masks.any (fun m => m r))).isEmpty &&
      diseaseTruthy disease then
    match disease, colOf df diseaseAliases with
    | some d, some dc => df.rows.filter (containsPred dc d)
    | _, _ => df.rows.filter (fun r => masks.any (fun m => m r))
  else df.rows.filter (fun r => masks.any (fun m => m r))

/-- The result dictionary built by `find_by_any` from the matched row (its
disease display is Python `None` when no disease column exists). -/
def anyExtract (df : DF) (r : Row) : MappingResult :=
  { disease := (colOf df diseaseAliases).map
      (fun dc => pyStrip (cellToStr ((r dc).getD (Cell.str ""))))
  , icd11_code := getVal df r ["icd11", "icd_11", "icd11_code"]
  , ayurveda_code := getVal df r ["ayurveda", "ayurveda_code"]
  , siddha_code := getVal df r ["siddha", "siddha_code"]
  , unani_code := getVal df r ["unani", "unani_code"]
  , snomed_code := getVal df r ["snomed", "snomed_code"]
  , loinc_code := getVal df r ["loinc", "loinc_code"] }

/-- `CodeMappingService.find_by_any`. -/
def find_by_any (df? : Option DF)
    (disease snomed icd11 ayurveda siddha unani : Option String) :
    Option MappingResult :=
  match df? with
  | none => none
  | some df =>
    if (anyMasks df disease snomed icd11 ayurveda siddha unani).isEmpty then none
    else
      match (fbaMatches df (anyMasks df disease snomed icd11 ayurveda siddha unani)
          disease).head? with
      | none => none
      | some r => some (anyExtract df r)

/-- The amended claim-side description of `find_by_any`: the first
table-order row satisfying the OR of the masks, where — unlike the claim's
uniform blank-skip — the disease key builds an exact mask whenever it is
non-empty, even when whitespace-only; then the substring fallback on the
disease column under the same truthiness test. -/
def resolveByAnyAmended (df? : Option DF)
    (disease snomed icd11 ayurveda siddha unani : Option String) :
    Option MappingResult :=
  match df? with
  | none => none
  | some df =>
    if (anyMasks df disease snomed icd11 ayurveda siddha unani).isEmpty then none
    else
      match df.rows.find? (fun r =>
          (anyMasks df disease snomed icd11 ayurveda siddha unani).any
            (fun m => m r)) with
      | some r => some (anyExtract df r)
      | none =>
        if diseaseTruthy disease then
          match disease, colOf df diseaseAliases with
          | some d, some dc =>
            match df.rows.find? (containsPred dc d) with
            | some r => some (anyExtract df r)
            | none => none
          | _, _ => none
        else none

/-- The claim-side mask list, following the claim words: one exact mask per
supplied NON-BLANK key whose column exists — with the disease key subject to
the same blank-skip as the code keys. -/
def claimedMasks (df : DF)
    (disease snomed icd11 ayurveda siddha unani : Option String) :
    List (Row → Bool) :=
  (codeAliasVals snomed icd11 ayurveda siddha unani).filterMap
    (fun p => eqMask df p.1 p.2) ++
  (match disease with
   | none => []
   | some d =>
     if pyStrip d = "" then []
     else
       match colOf df diseaseAliases with
       | none => []
       | some dc => [exactPred dc d])

/-- The resolver procedure exactly as the claim states it: masks only for
supplied non-blank keys, first table-order row satisfying their OR, and a
substring fallback on the disease column when a non-blank disease name was
supplied. -/
def resolveByAnyClaimed (df? : Option DF)
    (disease snomed icd11 ayurveda siddha unani : Option String) :
    Option MappingResult :=
  match df? with
  | none => none
  | some df =>
    if (claimedMasks df disease snomed icd11 ayurveda siddha unani).isEmpty then
      none
    else
      match df.rows.find? (fun r =>
          (claimedMasks df disease snomed icd11 ayurveda siddha unani).any
            (fun m => m r)) with
      | some r => some (anyExtract df r)
      | none =>
        match disease, colOf df diseaseAliases with
        | some d, some dc =>
          if pyStrip d = "" then none
          else
            match df.rows.find? (containsPred dc d) with
            | some r => some (anyExtract df r)
            | none => none
        | _, _ => none

/-- Reference row "flu" (first in table order). -/
def blankRowA : Row := fun k =>
  if k = "disease" then some (Cell.str "flu")
  else if k = "icd11" then some (Cell.str "1A00") else none

/-- Reference row whose disease cell is a single space (second in table
order). -/
def blankRowB : Row := fun k =>
  if k = "disease" then some (Cell.str " ")
  else if k = "icd11" then some (Cell.str "1B00") else none

/-- Fixture for the whitespace-disease counterexample. -/
def blankDF : DF := { cols := ["disease", "icd11"], rows := [blankRowA, blankRowB] }

/-- C3 counterexample: querying with the whitespace-only disease " " makes
the code build an exact mask for a blank key and return the blank-disease
row, while the claim procedure (blank keys skipped) returns NoMatch. -/
theorem find_by_any_blank_disease_cex :
    find_by_any (some blankDF) (some " ") none none none none none ≠
      resolveByAnyClaimed (some blankDF) (some " ") none none none none none ∧
    find_by_any (some blankDF) (some " ") none none none none none =
      some { disease := some "", icd11_code := some "1B00",
             ayurveda_code := none, siddha_code := none, unani_code := none,
             snomed_code := none, loinc_code := none } ∧
    resolveByAnyClaimed (some blankDF) (some " ") none none none none none =
      none := by decide

/-- C3 amended: for every service state and key combination whose trimmed
disease string is free of regex metacharacters (where the source's
regex-containment fallback coincides with a substring match and cannot
raise), `find_by_any` returns the full code set of the first table-order row
satisfying the OR-combined exact masks (one per supplied non-blank code key
with an existing column, plus an exact disease mask whenever the disease
string is non-empty — including whitespace-only), falling back to a
substring match on the disease column when the mask matches nothing and the
disease argument is truthy, and NoMatch otherwise; ties always go to the
first row in table order. -/
theorem find_by_any_first_match (df? : Option DF)
    (disease snomed icd11 ayurveda siddha unani : Option String)
    (hd : regexMetaFree (pyStrip (disease.getD "")) = true) :
    find_by_any df? disease snomed icd11 ayurveda siddha unani =
      resolveByAnyAmended df? disease snomed icd11 ayurveda siddha unani := by
  cases df? with
  | none => rfl
  | some df =>
    unfold find_by_any resolveByAnyAmended
    dsimp only
    by_cases hm :
      (anyMasks df disease snomed icd11 ayurveda siddha unani).isEmpty = true
    · rw [if_pos hm, if_pos hm]
    · rw [if_neg hm, if_neg hm]
      cases hf : df.rows.find? (fun r =>
          (anyMasks df disease snomed icd11 ayurveda siddha unani).any
            (fun m => m r)) with
      | some r =>
        have h0 : (df.rows.filter (fun r =>
            (anyMasks df disease snomed icd11 ayurveda siddha unani).any
              (fun m => m r))).isEmpty ≠ true := by
          intro hI
          rw [(filter_isEmpty_iff_find?_eq_none _ _).mp hI] at hf
          exact Option.noConfusion hf
        have hcond : ((df.rows.filter (fun r =>
            (anyMasks df disease snomed icd11 ayurveda siddha unani).any
              (fun m => m r))).isEmpty && diseaseTruthy disease) ≠ true := by
          intro hc
          simp only [Bool.and_eq_true] at hc
          exact h0 hc.1
        unfold fbaMatches
        rw [if_neg hcond, head?_filter_eq_find?, hf]
      | none =>
        have h0 : (df.rows.filter (fun r =>
            (anyMasks df disease snomed icd11 ayurveda siddha unani).any
              (fun m => m r))).isEmpty = true :=
          (filter_isEmpty_iff_find?_eq_none _ _).mpr hf
        unfold fbaMatches
        by_cases hd : diseaseTruthy disease = true
        · rw [if_pos (by rw [h0, hd]; rfl), if_pos hd]
          rcases disease with _ | d
          · simp [diseaseTruthy] at hd
          · rcases hdc : colOf df diseaseAliases with _ | dc <;> dsimp only
            · rw [head?_filter_eq_find?, hf]
            · rw [head?_filter_eq_find?]
              cases df.rows.find? (containsPred dc d) <;> rfl
        · have hcond : ((df.rows.filter (fun r =>
              (anyMasks df disease snomed icd11 ayurveda siddha unani).any
                (fun m => m r))).isEmpty && diseaseTruthy disease) ≠ true := by
            intro hc
            simp only [Bool.and_eq_true] at hc
            exact hd hc.2
          rw [if_neg hcond, if_neg hd, head?_filter_eq_find?, hf]

/-- C3 witness: the metacharacter-free query "lu" on the two-row fixture has
no exact match, reaches the substring fallback, and both formulations return
the first ("flu") row. -/
theorem find_by_any_first_match_witness :
    regexMetaFree (pyStrip ((some "lu" : Option String).getD "")) = true ∧
    find_by_any (some blankDF) (some "lu") none none none none none =
      resolveByAnyAmended (some blankDF) (some "lu") none none none none none ∧
    resolveByAnyAmended (some blankDF) (some "lu") none none none none none =
      some { disease := some "flu", icd11_code := some "1A00",
             ayurveda_code := none, siddha_code := none, unani_code := none,
             snomed_code := none, loinc_code := none } :=
  ⟨by decide,
   find_by_any_first_match (some blankDF) (some "lu") none none none none none
     (by decide),
   by decide⟩
